import Mathlib

/-!
Shallow embedding of the mcp-dominos-pizza order-workflow engine
(`src/utils/sessionManager.js` and the action handlers under `src/actions/`).

Conventions of the embedding:
* JavaScript objects become Lean structures; absent / `undefined` fields are
  `Option` fields.
* A handler that can `throw` returns an `Outcome`; `Outcome.thrown msg` is a
  raised error with its message, `Outcome.ok v` is a normally returned value.
* Session-mutating handlers take the `SessionState` and return the new one
  (JavaScript mutates the shared session in place; the embedding threads the
  state explicitly).
* A remote call (the `dominos` package hitting the network) is embedded as an
  `Except String β` argument: the response the remote service would give if it
  were called.  "The handler makes no remote call" is expressed as the output
  being independent of that argument.
* JavaScript object identity of the `Item` instances created by
  `addItemToOrder` is modelled by a `nonce : Nat` field: each `new Item(...)`
  gets a fresh nonce, and identity-based search (`Array.prototype.indexOf`,
  which uses `===`) compares nonces.
-/

/-- Outcome of one handler invocation: either a value returned normally or an
error raised (`throw new Error(msg)`) out of the handler. -/
inductive Outcome (α : Type) where
  | ok (v : α)
  | thrown (msg : String)
  deriving Repr, DecidableEq

/-- True exactly on raised errors. -/
def Outcome.isThrown {α : Type} : Outcome α → Bool
  | .thrown _ => true
  | .ok _ => false

/-- A raw store record as delivered by the remote store-locator
(`nearbyStoresResult.stores` in `findNearbyStores.js`).  `MinDistance` is the
distance in miles from the queried address; it is absent for some stores.
Distances are modelled as exact rationals. -/
structure RawStore where
  StoreID : String
  AddressDescription : String
  Phone : String
  IsOnlineCapable : Bool
  IsOpen : Bool
  serviceOpenDelivery : Bool
  serviceOpenCarryout : Bool
  waitDelivery : Option (Nat × Nat)
  waitCarryout : Option (Nat × Nat)
  MinDistance : Option ℚ
  deriving Repr, DecidableEq

/-- The customization-options structure of a line item:
topping code → portion key → quantity-level string.  The handlers pass it
through without inspecting it. -/
abbrev ItemOptions := List (String × List (String × String))

/-- One line item of an order (`Item` instance from the `dominos` package as
the handlers observe it: `code`, `options`, `qty`).  Modelled from the spec:
the `dominos` `Item` wrapper (external npm package, not in this repository)
is taken to store the code, options and quantity supplied by
`addItemToOrder.js` verbatim, with `qty` the quantity count; `nonce` models
the JavaScript object identity of the freshly constructed instance. -/
structure OrderItem where
  nonce : Nat
  code : String
  options : ItemOptions
  qty : Int
  deriving Repr, DecidableEq

/-- The `amountsBreakdown` a successful remote pricing call leaves on the
order object.  Individual fields may be absent (the handlers guard each read
with `?.` and `|| 0`). -/
structure AmountsBreakdown where
  menu : Option ℚ
  tax : Option ℚ
  customer : Option ℚ
  surcharge : Option ℚ
  deriving Repr, DecidableEq

/-- A structured delivery address (the `customer.address` object of the
`createOrder` tool schema in `actions/index.js`). -/
structure AddressObj where
  street : String
  city : String
  region : String
  postalCode : String
  deriving Repr, DecidableEq

/-- A payment instruction attached to an order before placement
(the `dominos` `Payment` object built by `placeOrder.js`). -/
structure PaymentData where
  amount : ℚ
  number : Option String
  expiration : Option String
  securityCode : Option String
  postalCode : Option String
  tipAmount : Option ℚ
  deriving Repr, DecidableEq

/-- The Order Aggregate: the mutable `dominos` `Order` object as the handlers
read and write it. -/
structure Order where
  storeID : String
  serviceMethod : String
  firstName : String
  lastName : String
  phone : String
  email : Option String
  address : Option AddressObj
  products : List OrderItem
  amountsBreakdown : Option AmountsBreakdown
  payments : List PaymentData
  deriving Repr, DecidableEq

/-- The raw `Misc` section of a menu payload. -/
structure MenuMisc where
  Status : Int
  StatusItem : Option String
  StoreID : Option String
  deriving Repr, DecidableEq

/-- The raw data sections of a menu payload (`menu.dominosAPIResponse`).
The contents of the `Products` / `Variants` / `Toppings` sections feed only
the category formatter, which none of the claims concern; the embedding
keeps just their presence (absent = the section is missing from the
payload). -/
structure MenuData where
  Products : Option Unit
  Variants : Option Unit
  Toppings : Option Unit
  Misc : Option MenuMisc
  deriving Repr, DecidableEq

/-- A fetched `Menu` object (`await new Menu(storeId)`); its
`dominosAPIResponse` may itself be absent. -/
structure RawMenu where
  dominosAPIResponse : Option MenuData
  deriving Repr, DecidableEq

/-- The in-memory state held by `createSessionManager` in
`src/utils/sessionManager.js`: candidate stores, the selected store, the last
fetched menu and the order map (a JavaScript object, modelled as an
association list in insertion order).  The unused `customers` map is
omitted. -/
structure SessionState where
  stores : List RawStore
  selectedStore : Option RawStore
  menu : Option RawMenu
  orders : List (String × Order)
  deriving Repr, DecidableEq

/-- The fresh session state built at process start. -/
def SessionState.initial : SessionState :=
  { stores := [], selectedStore := none, menu := none, orders := [] }

/-- `setStores` of the session manager: replaces the candidate list
unconditionally. -/
def SessionState.setStores (s : SessionState) (stores : List RawStore) : SessionState :=
  { s with stores := stores }

/-- `selectStore` of the session manager (`sessionManager.js` lines 50-56):
looks the id up in the candidate list with `find`, sets `selectedStore` only
when found, and returns `state.selectedStore` (the field value after the
conditional update).  The first component is the updated state, the second
the returned value. -/
def SessionState.selectStore (s : SessionState) (storeId : String) :
    SessionState × Option RawStore :=
  match s.stores.find? (fun st => st.StoreID == storeId) with
  | some st => ({ s with selectedStore := some st }, some st)
  | none => (s, s.selectedStore)

/-- `setMenu` of the session manager: replaces the stored menu
unconditionally. -/
def SessionState.setMenu (s : SessionState) (menu : RawMenu) : SessionState :=
  { s with menu := some menu }

/-- `state.orders[orderId] = order` (JavaScript object upsert). -/
def upsertOrder (orders : List (String × Order)) (orderId : String) (o : Order) :
    List (String × Order) :=
  if orders.any (fun p => p.1 == orderId) then
    orders.map (fun p => if p.1 == orderId then (orderId, o) else p)
  else
    orders ++ [(orderId, o)]

/-- `createOrder` of the session manager: inserts the order under a freshly
generated identifier.  The `uuidv4()` value is passed in as `freshId`. -/
def SessionState.createOrder (s : SessionState) (freshId : String) (o : Order) : SessionState :=
  { s with orders := upsertOrder s.orders freshId o }

/-- `getOrder` of the session manager: the stored aggregate, or `none`
(`null`) when the id is unknown. -/
def SessionState.getOrder (s : SessionState) (orderId : String) : Option Order :=
  s.orders.lookup orderId

/-- `updateOrder` of the session manager: replaces the stored aggregate only
when the id already exists. -/
def SessionState.updateOrder (s : SessionState) (orderId : String) (o : Order) : SessionState :=
  if s.orders.any (fun p => p.1 == orderId) then
    { s with orders := s.orders.map (fun p => if p.1 == orderId then (orderId, o) else p) }
  else
    s

/-- A sample store used in concrete evaluations. -/
def storeSeven : RawStore :=
  { StoreID := "7890", AddressDescription := "1 Main St", Phone := "555-0000",
    IsOnlineCapable := true, IsOpen := true,
    serviceOpenDelivery := true, serviceOpenCarryout := true,
    waitDelivery := some (20, 30), waitCarryout := some (10, 15),
    MinDistance := some 1 }

/-- A session in which `storeSeven` has already been selected. -/
def sessionWithSelection : SessionState :=
  { stores := [storeSeven], selectedStore := some storeSeven, menu := none, orders := [] }

/-- Claim C2: for a store id absent from the candidate list, `selectStore`
is claimed to return an explicit "not found" signal (not some other store)
and to leave the selection unchanged.  Evaluating the code at a failing
input: with `storeSeven` already selected, `selectStore "9999"` (an id not in
the candidate list) leaves the selection unchanged but returns the
previously selected `storeSeven` — not `null` — contradicting the function's
own doc comment ("null if not found"). -/
theorem selectStore_unknown_id_returns_previous_selection :
    (sessionWithSelection.selectStore "9999").2 = some storeSeven ∧
    (sessionWithSelection.selectStore "9999").1 = sessionWithSelection ∧
    storeSeven.StoreID ≠ "9999" := by
  refine ⟨rfl, rfl, ?_⟩
  decide

/-- JavaScript truthiness test on an optional string: `undefined`/absent and
the empty string are falsy. -/
def jsFalsyStr : Option String → Bool
  | none => true
  | some t => t == ""

/-- JavaScript truthiness test on an optional number: `undefined`/absent and
`0` are falsy. -/
def jsFalsyNum : Option ℚ → Bool
  | none => true
  | some q => q == 0

/-- The structural-completeness check of `getMenu.js` lines 236-241:
`!menuData || !menuData.Products || !menuData.Variants || !menuData.Toppings`. -/
def menuDataIncomplete (m : RawMenu) : Bool :=
  match m.dominosAPIResponse with
  | none => true
  | some d => d.Products.isNone || d.Variants.isNone || d.Toppings.isNone

/-- The successful payload of `getMenu`.  The categorized menu structure the
handler builds on success is a pure formatting layer over the raw payload
(none of the claims concern it), so the embedding keeps only the echoed
store id (`menuData.Misc?.StoreID || storeId`). -/
structure GetMenuResult where
  storeId : String
  deriving Repr, DecidableEq

/-- Handler for the `getMenu` action (`src/actions/getMenu.js` lines
220-348).  `remote` is the response `await new Menu(storeId)` would produce:
a fetched menu, or a network/provider error.  The handler first applies
`sessionManager.selectStore(storeId)`, then fetches, then applies
`sessionManager.setMenu(menu)`, and only then checks the payload for
structural completeness, throwing the "incomplete menu data" error on a
payload with missing sections (with a more specific message when
`Misc.Status === -1` and a truthy `Misc.StatusItem` report a store issue). -/
def getMenu (s : SessionState) (storeId : String) (remote : Except String RawMenu) :
    Outcome GetMenuResult × SessionState :=
  let s1 := (s.selectStore storeId).1
  match remote with
  | .error e => (.thrown ("Failed to get menu: " ++ e), s1)
  | .ok menu =>
    let s2 := s1.setMenu menu
    if menuDataIncomplete menu then
      let misc := menu.dominosAPIResponse.bind (fun d => d.Misc)
      if (misc.map (fun mi => mi.Status)) == some (-1) &&
          !(jsFalsyStr (misc.bind (fun mi => mi.StatusItem))) then
        (.thrown ("Failed to get menu: Store status indicates an issue - " ++
          ((misc.bind (fun mi => mi.StatusItem)).getD "")), s2)
      else
        (.thrown ("Failed to get menu: Incomplete menu data received from API. " ++
          "The store might be closed or the API response is malformed."), s2)
    else
      (.ok { storeId := (menu.dominosAPIResponse.bind (fun d => d.Misc)).bind
               (fun mi => mi.StoreID) |>.getD storeId }, s2)

/-- A structurally complete menu payload used for concrete evaluations. -/
def completeMenu : RawMenu :=
  { dominosAPIResponse := some
      { Products := some (), Variants := some (), Toppings := some (),
        Misc := some { Status := 0, StatusItem := none, StoreID := some "123" } } }

/-- A menu payload whose `Toppings` section is missing, triggering the
"incomplete menu data" failure. -/
def incompleteMenu : RawMenu :=
  { dominosAPIResponse := some
      { Products := some (), Variants := some (), Toppings := none, Misc := none } }

/-- `setMenu` leaves the selection untouched. -/
theorem setMenu_selectedStore (s : SessionState) (m : RawMenu) :
    (s.setMenu m).selectedStore = s.selectedStore := rfl

/-- The state `selectStore` leaves behind, described through the lookup. -/
theorem selectStore_fst_selectedStore (s : SessionState) (storeId : String) :
    ((s.selectStore storeId).1).selectedStore =
      match s.stores.find? (fun st => st.StoreID == storeId) with
      | some st => some st
      | none => s.selectedStore := by
  unfold SessionState.selectStore
  cases hfind : s.stores.find? (fun st => st.StoreID == storeId) <;> simp [hfind]

/-- On a successful fetch, the session `getMenu` leaves behind is the initial
one with `selectStore` applied and the fetched menu recorded — whether or not
the payload was complete. -/
theorem getMenu_ok_snd (s : SessionState) (storeId : String) (menu : RawMenu) :
    (getMenu s storeId (.ok menu)).2 = (s.selectStore storeId).1.setMenu menu := by
  unfold getMenu
  dsimp only
  split
  · split <;> rfl
  · rfl

/-- On a failed fetch, the session `getMenu` leaves behind is the initial one
with only `selectStore` applied. -/
theorem getMenu_error_snd (s : SessionState) (storeId : String) (e : String) :
    (getMenu s storeId (.error e)).2 = (s.selectStore storeId).1 := rfl

/-- Claim C3 (counterexample): on a fresh session whose candidate list is
empty, `getMenu "123"` with a successfully fetched, complete menu leaves
`selectedStore` as `none` — the claimed side effect "sets that store as the
session's selectedStore" for identifiers outside the candidate list does not
happen, because `sessionManager.selectStore` only assigns when the id is
found in the last-recorded candidate list. -/
theorem getMenu_unknown_id_does_not_select :
    ((getMenu SessionState.initial "123" (.ok completeMenu)).2.selectedStore = none) ∧
    ((getMenu SessionState.initial "123" (.ok completeMenu)).1.isThrown = false) := by
  constructor <;> rfl

/-- Claim C3 (amended): `getMenu` applies `sessionManager.selectStore` to the
requested id, so the session's `selectedStore` afterwards is the candidate
store whose `StoreID` matches the requested id when one exists, and is
otherwise left unchanged; independently of that, a successfully fetched menu
is always recorded in the session, whatever the identifier. -/
theorem getMenu_selectStore_effect (s : SessionState) (storeId : String)
    (remote : Except String RawMenu) :
    ((getMenu s storeId remote).2.selectedStore =
      match s.stores.find? (fun st => st.StoreID == storeId) with
      | some st => some st
      | none => s.selectedStore) ∧
    (∀ menu, remote = .ok menu → (getMenu s storeId remote).2.menu = some menu) := by
  constructor
  · cases remote with
    | error e =>
      rw [getMenu_error_snd, selectStore_fst_selectedStore]
    | ok menu =>
      rw [getMenu_ok_snd, setMenu_selectedStore, selectStore_fst_selectedStore]
  · intro menu hmenu
    subst hmenu
    rw [getMenu_ok_snd]
    rfl

/-- Witness for `getMenu_selectStore_effect` at a concrete session and menu. -/
theorem getMenu_selectStore_effect_witness :
    (getMenu sessionWithSelection "7890" (.ok completeMenu)).2.menu = some completeMenu :=
  (getMenu_selectStore_effect sessionWithSelection "7890" (.ok completeMenu)).2
    completeMenu rfl

/-- Claim C10: when `getMenu` fails with the "incomplete menu data"
condition, the session has already been mutated: the final session state is
exactly the initial one with `selectStore storeId` applied and the incomplete
snapshot stored by `setMenu` — the failure is not atomic with respect to
session state. -/
theorem getMenu_incomplete_mutates_session_before_failing (s : SessionState)
    (storeId : String) (menu : RawMenu) (h : menuDataIncomplete menu = true) :
    ((getMenu s storeId (.ok menu)).1.isThrown = true) ∧
    ((getMenu s storeId (.ok menu)).2 = ((s.selectStore storeId).1.setMenu menu)) ∧
    ((getMenu s storeId (.ok menu)).2.menu = some menu) := by
  refine ⟨?_, getMenu_ok_snd s storeId menu, by rw [getMenu_ok_snd]; rfl⟩
  unfold getMenu
  dsimp only
  rw [if_pos h]
  split <;> rfl

/-- Witness for `getMenu_incomplete_mutates_session_before_failing` on a
fresh session and a payload missing its `Toppings` section. -/
theorem getMenu_incomplete_witness :
    menuDataIncomplete incompleteMenu = true ∧
    (getMenu SessionState.initial "123" (.ok incompleteMenu)).2.menu = some incompleteMenu :=
  ⟨rfl, (getMenu_incomplete_mutates_session_before_failing SessionState.initial "123"
    incompleteMenu rfl).2.2⟩

/-- The customer argument of the `createOrder` tool (schema in
`actions/index.js`): names and phone required, email and structured address
optional. -/
structure CustomerParams where
  firstName : String
  lastName : String
  phone : String
  email : Option String
  address : Option AddressObj
  deriving Repr, DecidableEq

/-- The value returned by a successful `createOrder`: the fresh id, an echo
of the accepted customer info (the address echoed only when supplied), and
the selected store's id/address when `sessionManager.selectStore` returned a
store. -/
structure CreateOrderResult where
  orderId : String
  status : String
  orderType : String
  echoFirstName : String
  echoLastName : String
  echoAddress : Option AddressObj
  store : Option (String × String)
  deriving Repr, DecidableEq

/-- Handler for the `createOrder` action (`src/actions/createOrder.js`,
current revision, lines 87-146 of the file; the superseded earlier draft that
demanded an address even for carryout is not modelled).  For a delivery
order a missing `customer.address` throws before anything is registered;
for carryout the address is ignored at creation time.  `freshId` is the
`uuidv4()` the session manager would generate. -/
def createOrder (s : SessionState) (storeId : String) (customer : CustomerParams)
    (orderType : String) (freshId : String) : Outcome CreateOrderResult × SessionState :=
  if orderType == "delivery" && customer.address.isNone then
    (.thrown "Failed to create order: Address is required for delivery orders", s)
  else
    let address : Option AddressObj :=
      if orderType == "delivery" then customer.address else none
    let order : Order :=
      { storeID := storeId,
        serviceMethod := if orderType == "delivery" then "Delivery" else "Carryout",
        firstName := customer.firstName, lastName := customer.lastName,
        phone := customer.phone,
        email := if jsFalsyStr customer.email then none else customer.email,
        address := address,
        products := [], amountsBreakdown := none, payments := [] }
    let s1 := s.createOrder freshId order
    let sel := s1.selectStore storeId
    (.ok { orderId := freshId, status := "created", orderType := orderType,
           echoFirstName := customer.firstName, echoLastName := customer.lastName,
           echoAddress := customer.address,
           store := sel.2.map (fun st => (st.StoreID, st.AddressDescription)) },
     sel.1)

/-- Claim C4: creating a Delivery order without a customer address fails with
the descriptive validation error and leaves the session exactly as it was —
no order identifier is issued and no Order Aggregate is registered — while
for Carryout a missing address is not an error at creation time. -/
theorem createOrder_delivery_requires_address (s : SessionState) (storeId : String)
    (customer : CustomerParams) (freshId : String) (h : customer.address = none) :
    (createOrder s storeId customer "delivery" freshId =
      (.thrown "Failed to create order: Address is required for delivery orders", s)) ∧
    ((createOrder s storeId customer "carryout" freshId).1.isThrown = false) := by
  constructor
  · unfold createOrder
    rw [if_pos]
    simp [h]
  · unfold createOrder
    rw [if_neg]
    · rfl
    · simp

/-- A customer argument with no address, used as the concrete input of the
`createOrder` witness. -/
def customerNoAddress : CustomerParams :=
  { firstName := "Ada", lastName := "Smith", phone := "555-0001",
    email := none, address := none }

/-- Witness for `createOrder_delivery_requires_address` at a concrete
session and customer. -/
theorem createOrder_delivery_requires_address_witness :
    customerNoAddress.address = none ∧
    (createOrder SessionState.initial "7890" customerNoAddress "delivery" "id-1" =
      (.thrown "Failed to create order: Address is required for delivery orders",
       SessionState.initial)) :=
  ⟨rfl, (createOrder_delivery_requires_address SessionState.initial "7890"
    customerNoAddress "id-1" rfl).1⟩

/-- The value returned by `validateOrder` when it does not throw. -/
structure ValidateResult where
  orderId : String
  status : String
  isValid : Bool
  error : Option String
  deriving Repr, DecidableEq

/-- Handler for the `validateOrder` action (`src/actions/validateOrder.js`).
`remote` is the outcome `await order.validate()` would produce.  An unknown
order id or an empty item list throws before the remote service is
consulted; a remote rejection is returned as a normal result with status
`"validation_failed"` and the underlying reason. -/
def validateOrder (s : SessionState) (orderId : String) (remote : Except String Unit) :
    Outcome ValidateResult × SessionState :=
  match s.getOrder orderId with
  | none => (.thrown ("Failed to validate order: Order not found: " ++ orderId), s)
  | some order =>
    if order.products.length == 0 then
      (.thrown "Failed to validate order: Order has no items", s)
    else
      match remote with
      | .ok _ =>
        (.ok { orderId := orderId, status := "validated", isValid := true, error := none },
         s.updateOrder orderId order)
      | .error e =>
        (.ok { orderId := orderId, status := "validation_failed", isValid := false,
               error := some e }, s)

/-- Claim C5: `validateOrder` fails locally — the outcome is a raised error
that does not depend on the remote response — whenever the order does not
exist or has no items; and when the remote validate call rejects the order,
the handler raises nothing and returns a normal result with status
`"validation_failed"`, `isValid = false` and the remote-supplied reason. -/
theorem validateOrder_preconditions_and_rejection (s : SessionState) (orderId : String) :
    (s.getOrder orderId = none →
      (∀ r, (validateOrder s orderId r).1.isThrown = true) ∧
      (∀ r₁ r₂, validateOrder s orderId r₁ = validateOrder s orderId r₂)) ∧
    (∀ order, s.getOrder orderId = some order → order.products = [] →
      (∀ r, (validateOrder s orderId r).1.isThrown = true) ∧
      (∀ r₁ r₂, validateOrder s orderId r₁ = validateOrder s orderId r₂)) ∧
    (∀ order e, s.getOrder orderId = some order → order.products ≠ [] →
      (validateOrder s orderId (.error e)).1 =
        .ok { orderId := orderId, status := "validation_failed", isValid := false,
              error := some e }) := by
  refine ⟨fun hnone => ?_, fun order hsome hempty => ?_, fun order e hsome hne => ?_⟩
  · constructor <;> intros <;> unfold validateOrder <;> rw [hnone]
    rfl
  · have hlen : (order.products.length == 0) = true := by simp [hempty]
    constructor <;> intros <;> unfold validateOrder <;> rw [hsome] <;> simp only [hlen] <;> rfl
  · have hlen : (order.products.length == 0) = false := by
      simp [List.length_eq_zero, hne]
    unfold validateOrder
    rw [hsome]
    simp only [hlen]
    rfl

/-- An order with a single item, used in concrete evaluations. -/
def orderOneItem : Order :=
  { storeID := "7890", serviceMethod := "Carryout",
    firstName := "Ada", lastName := "Smith", phone := "555-0001", email := none,
    address := none,
    products := [{ nonce := 0, code := "16SCREEN", options := [], qty := 1 }],
    amountsBreakdown := none, payments := [] }

/-- A session holding `orderOneItem` under the id `"oid1"`. -/
def sessionOneItemOrder : SessionState :=
  { stores := [], selectedStore := none, menu := none, orders := [("oid1", orderOneItem)] }

/-- Witness for `validateOrder_preconditions_and_rejection`: a fresh session
has no order `"oid1"`, so validation raises locally; and on a session that
does hold a one-item order, a remote rejection comes back as a normal
`"validation_failed"` result. -/
theorem validateOrder_witness :
    SessionState.initial.getOrder "oid1" = none ∧
    (validateOrder SessionState.initial "oid1" (.ok ())).1.isThrown = true ∧
    sessionOneItemOrder.getOrder "oid1" = some orderOneItem ∧
    (validateOrder sessionOneItemOrder "oid1" (.error "bad item")).1 =
      .ok { orderId := "oid1", status := "validation_failed", isValid := false,
            error := some "bad item" } :=
  ⟨rfl,
   ((validateOrder_preconditions_and_rejection SessionState.initial "oid1").1 rfl).1 (.ok ()),
   rfl,
   (validateOrder_preconditions_and_rejection sessionOneItemOrder "oid1").2.2
     orderOneItem "bad item" rfl (by decide)⟩

/-- Reduction of `lookup` over a cons cell. -/
theorem lookup_cons (p : String × Order) (t : List (String × Order)) (oid : String) :
    (p :: t).lookup oid = if oid == p.1 then some p.2 else t.lookup oid := by
  simp [List.lookup]
  split <;> split <;> simp_all

/-- A successful `lookup` witnesses an `any` hit on the key. -/
theorem lookup_imp_any (l : List (String × Order)) (oid : String) (o : Order)
    (h : l.lookup oid = some o) : l.any (fun p => p.1 == oid) = true := by
  induction l with
  | nil => simp [List.lookup] at h
  | cons p t ih =>
    rw [lookup_cons] at h
    by_cases hk : oid = p.1
    · simp [List.any_cons, hk]
    · rw [if_neg (by simpa using hk)] at h
      simp [List.any_cons, ih h]

/-- After replacing the pair keyed `oid`, `lookup oid` sees the new value. -/
theorem lookup_map_replace (l : List (String × Order)) (oid : String) (o : Order)
    (h : l.any (fun p => p.1 == oid) = true) :
    (l.map (fun p => if p.1 == oid then (oid, o) else p)).lookup oid = some o := by
  induction l with
  | nil => simp at h
  | cons p t ih =>
    by_cases hk : p.1 = oid
    · rw [List.map_cons, if_pos (by simpa using hk), lookup_cons]
      simp
    · have hne : ¬ ((p.1 == oid) = true) := by simpa using hk
      rw [List.map_cons, if_neg hne, lookup_cons,
        if_neg (by simpa using fun he : oid = p.1 => hk he.symm)]
      simp only [List.any_cons, Bool.or_eq_true] at h
      rcases h with h | h
      · exact absurd h hne
      · exact ih h

/-- `updateOrder` on an id the session holds makes `getOrder` see the new
aggregate. -/
theorem getOrder_updateOrder_self (s : SessionState) (oid : String) (o o0 : Order)
    (h : s.getOrder oid = some o0) :
    (s.updateOrder oid o).getOrder oid = some o := by
  have hany := lookup_imp_any s.orders oid o0 h
  unfold SessionState.updateOrder SessionState.getOrder
  rw [if_pos hany]
  exact lookup_map_replace s.orders oid o hany

/-- The item argument of the `addItemToOrder` tool (schema in
`actions/index.js` lines 105-123): a catalog code, optional options, and an
optional integer quantity (the schema declares `z.number().int().default(1)`
— any integer, negatives included, is accepted). -/
structure ItemParams where
  code : String
  options : Option ItemOptions
  quantity : Option Int
  deriving Repr, DecidableEq

/-- JavaScript `q || 1` on the quantity: absent and `0` coerce to `1`, every
other value (negatives included) passes through. -/
def jsOrOneInt : Option Int → Int
  | none => 1
  | some q => if q == 0 then 1 else q

/-- One entry of the formatted item list `addItemToOrder` returns
(`name: product.name || product.code`, `quantity: product.qty || 1`). -/
structure FormattedItem where
  code : String
  name : String
  options : ItemOptions
  quantity : Int
  deriving Repr, DecidableEq

/-- The display formatting of the product list in `addItemToOrder.js`. -/
def formatItems (products : List OrderItem) : List FormattedItem :=
  products.map fun p =>
    { code := p.code, name := p.code, options := p.options,
      quantity := if p.qty == (0 : Int) then (1 : Int) else p.qty }

/-- The value returned by a successful `addItemToOrder`. -/
structure AddItemResult where
  orderId : String
  status : String
  items : List FormattedItem
  deriving Repr, DecidableEq

/-- Handler for the `addItemToOrder` action (`src/actions/addItemToOrder.js`).
An unknown order id throws; otherwise a fresh `Item` (identity `freshNonce`)
is built with `quantity: item.quantity || 1` and appended to the order's
products (`order.addItem` — modelled from the spec: the external `dominos`
`Order.addItem` appends the item to `order.products`), and the updated
aggregate is written back to the session. -/
def addItemToOrder (s : SessionState) (orderId : String) (item : ItemParams)
    (freshNonce : Nat) : Outcome AddItemResult × SessionState :=
  match s.getOrder orderId with
  | none => (.thrown ("Failed to add item to order: Order not found: " ++ orderId), s)
  | some order =>
    let dominosItem : OrderItem :=
      { nonce := freshNonce, code := item.code, options := item.options.getD [],
        qty := jsOrOneInt item.quantity }
    let order1 := { order with products := order.products ++ [dominosItem] }
    (.ok { orderId := orderId, status := "updated", items := formatItems order1.products },
     s.updateOrder orderId order1)

/-- An order with no items yet, stored under `"oid0"`. -/
def orderNoItems : Order :=
  { storeID := "7890", serviceMethod := "Carryout",
    firstName := "Ada", lastName := "Smith", phone := "555-0001", email := none,
    address := none, products := [], amountsBreakdown := none, payments := [] }

/-- A session holding only `orderNoItems`. -/
def sessionEmptyOrder : SessionState :=
  { stores := [], selectedStore := none, menu := none, orders := [("oid0", orderNoItems)] }

/-- An `addItemToOrder` argument with the schema-valid quantity `-2`. -/
def itemNegQty : ItemParams :=
  { code := "16SCREEN", options := none, quantity := some (-2) }

/-- Claim C9 (counterexample): the tool schema admits any integer quantity,
and `item.quantity || 1` only rewrites `0`/absent to `1`; supplying the
schema-valid quantity `-2` stores a line item with `qty = -2`, so the
"quantity count ≥ 1" invariant does not hold in every reachable session
state. -/
theorem addItemToOrder_negative_quantity_stored :
    (((addItemToOrder sessionEmptyOrder "oid0" itemNegQty 7).2.getOrder "oid0").map
      (fun o => o.products.map (fun it => it.qty)) = some [-2]) ∧
    ¬ (1 ≤ (-2 : Int)) := by
  constructor
  · rfl
  · decide

/-- Claim C9 (amended): `addItemToOrder` stores quantity `1` when the
supplied quantity is omitted or `0` and stores the supplied value otherwise;
consequently the "every line item has quantity ≥ 1" invariant is preserved
by any invocation whose supplied quantity is nonnegative (in particular when
it is omitted), though not by negative supplied quantities. -/
theorem addItemToOrder_preserves_qty_invariant (s : SessionState) (orderId : String)
    (item : ItemParams) (freshNonce : Nat) (order : Order)
    (hord : s.getOrder orderId = some order)
    (hinv : ∀ it ∈ order.products, 1 ≤ it.qty)
    (hq : ∀ q, item.quantity = some q → 0 ≤ q) :
    ∀ o, (addItemToOrder s orderId item freshNonce).2.getOrder orderId = some o →
      ∀ it ∈ o.products, 1 ≤ it.qty := by
  intro o ho it hit
  unfold addItemToOrder at ho
  rw [hord] at ho
  simp only at ho
  rw [getOrder_updateOrder_self s orderId _ order hord] at ho
  cases ho
  rcases List.mem_append.mp hit with hmem | hmem
  · exact hinv it hmem
  · rcases List.mem_singleton.mp hmem with rfl
    show 1 ≤ jsOrOneInt item.quantity
    cases hquant : item.quantity with
    | none => decide
    | some q =>
      have h0 : 0 ≤ q := hq q hquant
      simp only [jsOrOneInt]
      by_cases hz : q = 0
      · simp [hz]
      · rw [if_neg (by simpa using hz)]
        omega

/-- An `addItemToOrder` argument with quantity `2`. -/
def itemTwoQty : ItemParams :=
  { code := "14SCREEN", options := none, quantity := some 2 }

/-- Witness for `addItemToOrder_preserves_qty_invariant` at a concrete
session, order and item. -/
theorem addItemToOrder_preserves_qty_invariant_witness :
    1 ≤ ({ nonce := 5, code := "14SCREEN", options := [], qty := 2 } : OrderItem).qty :=
  addItemToOrder_preserves_qty_invariant sessionOneItemOrder "oid1" itemTwoQty 5
    orderOneItem rfl (by decide)
    (fun q hquant => by
      have h2 : (2 : Int) = q := by simpa [itemTwoQty] using hquant
      omega)
    { orderOneItem with products := orderOneItem.products ++
        [{ nonce := 5, code := "14SCREEN", options := [], qty := 2 }] }
    (by rfl)
    { nonce := 5, code := "14SCREEN", options := [], qty := 2 }
    (by decide)

/-- Modelled from the spec: `Order.removeItem` of the external `dominos`
package removes the given `Item` instance from `order.products` by an
identity-based search (`indexOf` with `===`, here: first entry with the same
nonce), "removing exactly one entry, preserving relative order of the rest"
(spec §4.5); an instance that is not in the list removes nothing (the
handler only ever passes an entry of the list). -/
def removeFirstByNonce : List OrderItem → Nat → List OrderItem
  | [], _ => []
  | it :: rest, n => if it.nonce == n then rest else it :: removeFirstByNonce rest n

/-- `order.removeItem(item)` on the aggregate. -/
def Order.removeItem (o : Order) (item : OrderItem) : Order :=
  { o with products := removeFirstByNonce o.products item.nonce }

/-- The value returned by `removeItemFromOrder` — both on success
(`status = "item_removed"`) and on failure (`status = "error_removing_item"`,
the handler's catch block turns every raised error into a returned result
object). -/
structure RemoveItemResult where
  orderId : String
  status : String
  remainingItemsCount : Option Nat
  error : Option String
  deriving Repr, DecidableEq

/-- Handler for the `removeItemFromOrder` action
(`src/actions/removeItemFromOrder.js`).  The handler wraps its whole body in
`try`/`catch` and the catch block returns an `error_removing_item` result —
so no invocation raises; negative index, unknown order and out-of-range
index all produce a returned error result.  In range, the library's
`removeItem` is applied to `order.products[itemIndex]`; the JavaScript
in-place mutation of the aggregate is visible through the session's
reference, embedded here as an explicit write-back. -/
def removeItemFromOrder (s : SessionState) (orderId : String) (itemIndex : Int) :
    Outcome RemoveItemResult × SessionState :=
  if itemIndex < 0 then
    (.ok { orderId := orderId, status := "error_removing_item", remainingItemsCount := none,
           error := some "Invalid itemIndex provided. Must be a non-negative number." }, s)
  else
    match s.getOrder orderId with
    | none =>
      (.ok { orderId := orderId, status := "error_removing_item", remainingItemsCount := none,
             error := some ("Order with ID " ++ orderId ++ " not found in session.") }, s)
    | some order =>
      if h : order.products.length ≤ itemIndex.toNat then
        (.ok { orderId := orderId, status := "error_removing_item",
               remainingItemsCount := none,
               error := some ("Invalid itemIndex " ++ toString itemIndex ++ ". Order only has "
                 ++ toString order.products.length ++ " items.") }, s)
      else
        let itemToRemove := order.products.get ⟨itemIndex.toNat, by omega⟩
        let order1 := order.removeItem itemToRemove
        (.ok { orderId := orderId, status := "item_removed",
               remainingItemsCount := some order1.products.length, error := none },
         s.updateOrder orderId order1)

/-- Removing the entry at index `i` by its identity is exactly `eraseIdx i`
when the identities in the list are pairwise distinct. -/
theorem removeFirstByNonce_get (l : List OrderItem) (i : Nat) (hi : i < l.length)
    (hnd : (l.map (fun it => it.nonce)).Nodup) :
    removeFirstByNonce l (l.get ⟨i, hi⟩).nonce = l.eraseIdx i := by
  induction l generalizing i with
  | nil => cases hi
  | cons a t ih =>
    cases i with
    | zero => simp [removeFirstByNonce]
    | succ j =>
      have hj : j < t.length := by simpa using Nat.lt_of_succ_lt_succ hi
      have hget : ((a :: t).get ⟨j + 1, hi⟩) = t.get ⟨j, hj⟩ := rfl
      rw [hget]
      have hnth : (t.get ⟨j, hj⟩).nonce ∈ t.map (fun it => it.nonce) :=
        List.mem_map_of_mem _ (List.get_mem t j hj)
      rw [List.map_cons, List.nodup_cons] at hnd
      have hne : (a.nonce == (t.get ⟨j, hj⟩).nonce) = false := by
        simp only [beq_eq_false_iff_ne, ne_eq]
        intro he
        exact hnd.1 (he ▸ hnth)
      rw [List.eraseIdx_cons_succ, removeFirstByNonce, hne]
      simp only [Bool.false_eq_true, if_false]
      rw [ih j hj hnd.2]

/-- A two-item order stored under `"oid2"`. -/
def orderTwoItems : Order :=
  { storeID := "7890", serviceMethod := "Delivery",
    firstName := "Ada", lastName := "Smith", phone := "555-0001", email := none,
    address := some { street := "1 Main St", city := "Springfield", region := "IL",
                      postalCode := "62701" },
    products := [{ nonce := 0, code := "16SCREEN", options := [], qty := 1 },
                 { nonce := 1, code := "20BCOKE", options := [], qty := 1 }],
    amountsBreakdown := none, payments := [] }

/-- A session holding only `orderTwoItems`. -/
def sessionTwoItems : SessionState :=
  { stores := [], selectedStore := none, menu := none, orders := [("oid2", orderTwoItems)] }

/-- Claim C6 (counterexample): `removeItemFromOrder` with `itemIndex = 5` on
an order with 2 items does fail before any remote call with the order's item
list unchanged, but the out-of-range failure is not raised as an operation
error: the handler's catch block converts it into a normally returned result
with status `"error_removing_item"` — contradicting the claimed "raised
immediately ... per the error taxonomy" propagation. -/
theorem removeItemFromOrder_out_of_range_is_returned_not_raised :
    ((removeItemFromOrder sessionTwoItems "oid2" 5).1.isThrown = false) ∧
    ((removeItemFromOrder sessionTwoItems "oid2" 5).1 =
      .ok { orderId := "oid2", status := "error_removing_item", remainingItemsCount := none,
            error := some "Invalid itemIndex 5. Order only has 2 items." }) ∧
    ((removeItemFromOrder sessionTwoItems "oid2" 5).2 = sessionTwoItems) := by
  refine ⟨rfl, ?_, rfl⟩
  rfl

/-- Claim C6 (amended): on an existing order (with pairwise-distinct item
identities, as produced by `addItemToOrder`), an out-of-range index makes
`removeItemFromOrder` fail immediately — no remote call exists in the
handler at all — with the out-of-range message reported in a returned
`error_removing_item` result (not raised), and the session unchanged; an
in-range index removes exactly the addressed entry, preserving the relative
order of the rest (`take i ++ drop (i+1)`), and returns the remaining
count. -/
theorem removeItemFromOrder_spec (s : SessionState) (orderId : String) (order : Order)
    (hord : s.getOrder orderId = some order)
    (hnd : (order.products.map (fun it => it.nonce)).Nodup) :
    (∀ i : Int, 0 ≤ i → order.products.length ≤ i.toNat →
      removeItemFromOrder s orderId i =
        (.ok { orderId := orderId, status := "error_removing_item",
               remainingItemsCount := none,
               error := some ("Invalid itemIndex " ++ toString i ++ ". Order only has "
                 ++ toString order.products.length ++ " items.") }, s)) ∧
    (∀ i : Int, 0 ≤ i → i.toNat < order.products.length →
      ((removeItemFromOrder s orderId i).1 =
        .ok { orderId := orderId, status := "item_removed",
              remainingItemsCount := some (order.products.length - 1), error := none }) ∧
      ((removeItemFromOrder s orderId i).2.getOrder orderId =
        some { order with products :=
          order.products.take i.toNat ++ order.products.drop (i.toNat + 1) })) := by
  constructor
  · intro i hpos hrange
    unfold removeItemFromOrder
    rw [if_neg (by omega), hord]
    simp only
    rw [dif_pos hrange]
  · intro i hpos hrange
    unfold removeItemFromOrder
    rw [if_neg (by omega), hord]
    simp only
    rw [dif_neg (by omega)]
    have herase := removeFirstByNonce_get order.products i.toNat hrange hnd
    constructor
    · simp only [Order.removeItem, herase]
      rw [List.length_eraseIdx, if_pos hrange]
    · simp only [Order.removeItem, herase]
      rw [getOrder_updateOrder_self s orderId _ order hord,
        List.eraseIdx_eq_take_drop_succ]

/-- Witness for `removeItemFromOrder_spec`: removing index 0 from the
two-item order leaves exactly the second item and reports one remaining. -/
theorem removeItemFromOrder_spec_witness :
    sessionTwoItems.getOrder "oid2" = some orderTwoItems ∧
    ((removeItemFromOrder sessionTwoItems "oid2" 0).1 =
      .ok { orderId := "oid2", status := "item_removed",
            remainingItemsCount := some 1, error := none }) ∧
    ((removeItemFromOrder sessionTwoItems "oid2" 5).1.isThrown = false) :=
  ⟨rfl,
   (((removeItemFromOrder_spec sessionTwoItems "oid2" orderTwoItems rfl
       (by decide)).2 0 (by decide) (by decide)).1),
   by rfl⟩

/-- The payment argument of the `placeOrder` tool (schema in
`actions/index.js`): type `"credit"` or `"cash"`, optional card fields,
optional billing postal code and tip. -/
structure PaymentParams where
  type : String
  cardNumber : Option String
  expiration : Option String
  securityCode : Option String
  postalCode : Option String
  tipAmount : Option ℚ
  deriving Repr, DecidableEq

/-- What a successful remote placement (`await order.place()`) leaves on the
order object, as `placeOrder.js` reads it back: the remote order id, its
status, the estimated wait and the store address. -/
structure PlacedRemote where
  orderID : String
  status : String
  estimatedWaitMinutes : Option Nat
  storeAddress : Option String
  deriving Repr, DecidableEq

/-- The confirmation block of a successful placement.  For delivery the
handler renders `"w-(w+10) minutes"`; for carryout it renders a readiness
timestamp from `Date.now() + wait*60000` via `toLocaleTimeString` — the
clock/locale rendering is kept as the underlying wait payload here — plus
the pickup location and a fixed instruction string. -/
inductive PlaceConfirmation where
  | delivery (dominosOrderId : String) (orderStatus : String) (estimatedDeliveryTime : String)
  | carryout (dominosOrderId : String) (orderStatus : String) (readyWaitMinutes : Option Nat)
      (pickupLocation : Option String) (pickupInstructions : String)
  deriving Repr, DecidableEq

/-- The value returned by `placeOrder` when it does not throw: status
`"placed"` with the confirmation, or `"placement_failed"` with the remote
reason. -/
structure PlaceResult where
  orderId : String
  status : String
  orderType : Option String
  confirmation : Option PlaceConfirmation
  error : Option String
  deriving Repr, DecidableEq

/-- Handler for the `placeOrder` action (`src/actions/placeOrder.js` lines
16-106).  Local preconditions, checked in order before the remote call:
the order must exist, must carry a truthy computed customer-due amount
(`!order.amountsBreakdown || !order.amountsBreakdown.customer` throws
"Order must be priced before placing"), and a credit payment must carry
card number, expiration and security code.  The payment instruction is then
built (tip only honored for Delivery), attached to the aggregate (an
in-place mutation visible through the session even when placement then
fails), and the remote placement outcome is either recorded as a
confirmation or returned as a `placement_failed` result. -/
def placeOrder (s : SessionState) (orderId : String) (payment : PaymentParams)
    (remote : Except String PlacedRemote) : Outcome PlaceResult × SessionState :=
  match s.getOrder orderId with
  | none => (.thrown ("Failed to place order: Order not found: " ++ orderId), s)
  | some order =>
    if jsFalsyNum (order.amountsBreakdown.bind (fun ab => ab.customer)) then
      (.thrown "Failed to place order: Order must be priced before placing", s)
    else
      if payment.type == "credit" &&
          (jsFalsyStr payment.cardNumber || jsFalsyStr payment.expiration ||
           jsFalsyStr payment.securityCode) then
        (.thrown "Failed to place order: Card details are required for credit payment", s)
      else
        let paymentData : PaymentData :=
          { amount := (order.amountsBreakdown.bind (fun ab => ab.customer)).getD 0,
            number := if payment.type == "credit" then payment.cardNumber else none,
            expiration := if payment.type == "credit" then payment.expiration else none,
            securityCode := if payment.type == "credit" then payment.securityCode else none,
            postalCode := if payment.type == "credit" then payment.postalCode else none,
            tipAmount :=
              if !(jsFalsyNum payment.tipAmount) && order.serviceMethod == "Delivery" then
                payment.tipAmount
              else none }
        let order1 := { order with payments := [paymentData] }
        let s1 := s.updateOrder orderId order1
        match remote with
        | .error e =>
          (.ok { orderId := orderId, status := "placement_failed", orderType := none,
                 confirmation := none, error := some e }, s1)
        | .ok info =>
          let confirmation : PlaceConfirmation :=
            if order.serviceMethod == "Delivery" then
              .delivery info.orderID info.status
                (match info.estimatedWaitMinutes with
                 | some w => toString w ++ "-" ++ toString (w + 10) ++ " minutes"
                 | none => "Unknown")
            else
              .carryout info.orderID info.status info.estimatedWaitMinutes info.storeAddress
                "Please bring your order confirmation and payment card for verification."
          (.ok { orderId := orderId, status := "placed",
                 orderType := some (if order.serviceMethod == "Delivery" then "delivery"
                   else "carryout"),
                 confirmation := some confirmation, error := none },
           s1.updateOrder orderId order1)

/-- Claim C1: with no computed customer-due amount on the order, `placeOrder`
raises "Failed to place order: Order must be priced before placing" locally,
leaves the session unchanged, and its outcome does not depend on the remote
placement response (no remote call); and with `payment.type = "credit"` and
any of the card number, expiration or security code absent, every invocation
raises locally with an outcome likewise independent of the remote
response. -/
theorem placeOrder_local_preconditions (s : SessionState) (orderId : String)
    (payment : PaymentParams) :
    (∀ order, s.getOrder orderId = some order →
      order.amountsBreakdown.bind (fun ab => ab.customer) = none →
      (∀ r, placeOrder s orderId payment r =
        (.thrown "Failed to place order: Order must be priced before placing", s)) ∧
      (∀ r₁ r₂, placeOrder s orderId payment r₁ = placeOrder s orderId payment r₂)) ∧
    (payment.type = "credit" →
      (payment.cardNumber = none ∨ payment.expiration = none ∨ payment.securityCode = none) →
      (∀ r, (placeOrder s orderId payment r).1.isThrown = true ∧
        (placeOrder s orderId payment r).2 = s) ∧
      (∀ r₁ r₂, placeOrder s orderId payment r₁ = placeOrder s orderId payment r₂)) := by
  constructor
  · intro order hord hdue
    have hfals : jsFalsyNum (order.amountsBreakdown.bind (fun ab => ab.customer)) = true := by
      rw [hdue]; rfl
    constructor <;> intros <;> unfold placeOrder <;> rw [hord] <;> simp only [hfals] <;> rfl
  · intro htype hcard
    have hcredit : (payment.type == "credit") = true := by simp [htype]
    have hfalsCard : (jsFalsyStr payment.cardNumber || jsFalsyStr payment.expiration ||
        jsFalsyStr payment.securityCode) = true := by
      rcases hcard with hc | hc | hc <;> simp [hc, jsFalsyStr]
    constructor
    · intro r
      unfold placeOrder
      cases hord : s.getOrder orderId with
      | none => exact ⟨rfl, rfl⟩
      | some order =>
        simp only
        by_cases hdue : jsFalsyNum (order.amountsBreakdown.bind (fun ab => ab.customer)) = true
        · rw [if_pos hdue]
          exact ⟨rfl, rfl⟩
        · rw [if_neg hdue, if_pos (by rw [hcredit, hfalsCard]; rfl)]
          exact ⟨rfl, rfl⟩
    · intro r₁ r₂
      have hcond2 : (payment.type == "credit" &&
          (jsFalsyStr payment.cardNumber || jsFalsyStr payment.expiration ||
           jsFalsyStr payment.securityCode)) = true := by
        rw [hcredit, hfalsCard]
        rfl
      unfold placeOrder
      cases hord : s.getOrder orderId with
      | none => rfl
      | some order =>
        simp only
        by_cases hdue : jsFalsyNum (order.amountsBreakdown.bind (fun ab => ab.customer)) = true
        · rw [if_pos hdue, if_pos hdue]
        · rw [if_neg hdue, if_neg hdue, if_pos hcond2, if_pos hcond2]

/-- A credit payment with the security code missing. -/
def paymentMissingCode : PaymentParams :=
  { type := "credit", cardNumber := some "4100123422343234",
    expiration := some "01/35", securityCode := none, postalCode := none, tipAmount := none }

/-- Witness for `placeOrder_local_preconditions`: the unpriced one-item order
makes placement raise the pricing error for any remote response, and a
credit payment missing its security code raises locally as well. -/
theorem placeOrder_local_preconditions_witness :
    sessionOneItemOrder.getOrder "oid1" = some orderOneItem ∧
    (placeOrder sessionOneItemOrder "oid1" paymentMissingCode (.error "outage") =
      (.thrown "Failed to place order: Order must be priced before placing",
       sessionOneItemOrder)) ∧
    (placeOrder sessionOneItemOrder "oid1" paymentMissingCode (.error "outage")).1.isThrown
      = true :=
  ⟨rfl,
   ((placeOrder_local_preconditions sessionOneItemOrder "oid1" paymentMissingCode).1
     orderOneItem rfl rfl).1 (.error "outage"),
   (((placeOrder_local_preconditions sessionOneItemOrder "oid1" paymentMissingCode).2
     rfl (Or.inr (Or.inr rfl))).1 (.error "outage")).1⟩

/-- The value returned by `priceOrder` when it does not throw. -/
structure PriceResult where
  orderId : String
  status : String
  subTotal : Option ℚ
  tax : Option ℚ
  total : Option ℚ
  delivery : Option ℚ
  error : Option String
  deriving Repr, DecidableEq

/-- Handler for the `priceOrder` action (`src/actions/priceOrder.js`).
`remote` is what `await order.price()` would leave as `amountsBreakdown`.
A successful pricing is persisted back to the session; a remote failure is
returned as a `pricing_failed` result. -/
def priceOrder (s : SessionState) (orderId : String)
    (remote : Except String AmountsBreakdown) : Outcome PriceResult × SessionState :=
  match s.getOrder orderId with
  | none => (.thrown ("Failed to price order: Order not found: " ++ orderId), s)
  | some order =>
    match remote with
    | .ok ab =>
      let order1 := { order with amountsBreakdown := some ab }
      (.ok { orderId := orderId, status := "priced",
             subTotal := some (ab.menu.getD 0), tax := some (ab.tax.getD 0),
             total := some (ab.customer.getD 0),
             delivery := if order.serviceMethod == "Delivery" then some (ab.surcharge.getD 0)
               else none,
             error := none },
       s.updateOrder orderId order1)
    | .error e =>
      (.ok { orderId := orderId, status := "pricing_failed", subTotal := none, tax := none,
             total := none, delivery := none, error := some e }, s)

/-- `List.merge` depends on the comparator only at pairs drawn from the two
lists. -/
theorem merge_congr {α : Type} (le₁ le₂ : α → α → Bool) :
    ∀ (l₁ l₂ : List α), (∀ a ∈ l₁, ∀ b ∈ l₂, le₁ a b = le₂ a b) →
      l₁.merge l₂ le₁ = l₁.merge l₂ le₂ := by
  intro l₁
  induction l₁ with
  | nil => intro l₂ h; rw [List.nil_merge, List.nil_merge]
  | cons a t ih =>
    intro l₂
    induction l₂ with
    | nil => intro h; simp [List.merge]
    | cons b u ihb =>
      intro h
      rw [List.cons_merge_cons, List.cons_merge_cons]
      have hab : le₁ a b = le₂ a b := h a (by simp) b (by simp)
      by_cases hle : le₁ a b = true
      · rw [if_pos hle, if_pos (hab ▸ hle)]
        rw [ih (b :: u) (fun x hx y hy => h x (by simp [hx]) y hy)]
      · rw [if_neg hle, if_neg (by rw [← hab]; exact hle)]
        rw [ihb (fun x hx y hy => h x hx y (by simp [hy]))]

/-- `List.mergeSort` depends on the comparator only at pairs drawn from the
list being sorted. -/
theorem mergeSort_congr {α : Type} (le₁ le₂ : α → α → Bool) (l : List α)
    (hagree : ∀ a ∈ l, ∀ b ∈ l, le₁ a b = le₂ a b) :
    l.mergeSort le₁ = l.mergeSort le₂ := by
  have main : ∀ n (l : List α), l.length = n →
      (∀ a ∈ l, ∀ b ∈ l, le₁ a b = le₂ a b) →
      l.mergeSort le₁ = l.mergeSort le₂ := by
    intro n
    induction n using Nat.strong_induction_on with
    | _ n ih =>
      intro l hlen hag
      cases l with
      | nil => simp
      | cons a l1 =>
      cases l1 with
      | nil => simp
      | cons b xs =>
        rw [List.mergeSort, List.mergeSort]
        have hfst := List.splitInTwo_fst
          (⟨a :: b :: xs, rfl⟩ : { l : List α // l.length = xs.length + 2 })
        have hsnd := List.splitInTwo_snd
          (⟨a :: b :: xs, rfl⟩ : { l : List α // l.length = xs.length + 2 })
        set lr := List.splitInTwo
          (⟨a :: b :: xs, rfl⟩ : { l : List α // l.length = xs.length + 2 })
        have hsub1 : lr.1.1.Sublist (a :: b :: xs) := by
          rw [hfst]; exact List.take_sublist _ _
        have hsub2 : lr.2.1.Sublist (a :: b :: xs) := by
          rw [hsnd]; exact List.drop_sublist _ _
        have hag1 : ∀ x ∈ lr.1.1, ∀ y ∈ lr.1.1, le₁ x y = le₂ x y :=
          fun x hx y hy => hag x (hsub1.subset hx) y (hsub1.subset hy)
        have hag2 : ∀ x ∈ lr.2.1, ∀ y ∈ lr.2.1, le₁ x y = le₂ x y :=
          fun x hx y hy => hag x (hsub2.subset hx) y (hsub2.subset hy)
        have hlen0 : xs.length + 2 = n := by simpa using hlen
        have hlen1 : lr.1.1.length < n := by
          have := lr.1.2
          omega
        have hlen2 : lr.2.1.length < n := by
          have := lr.2.2
          omega
        rw [ih lr.1.1.length hlen1 lr.1.1 rfl hag1,
            ih lr.2.1.length hlen2 lr.2.1 rfl hag2]
        apply merge_congr
        intro x hx y hy
        exact hag x (hsub1.subset (List.mem_mergeSort.mp hx)) y
          (hsub2.subset (List.mem_mergeSort.mp hy))
  exact main l.length l rfl hagree

/-- Stability of the stable sort on a class of pairwise-equivalent elements:
their subsequence is exactly the input's. -/
theorem mergeSort_filter_eq_of_equiv {α : Type} (le : α → α → Bool)
    (htrans : ∀ a b c, le a b = true → le b c = true → le a c = true)
    (htotal : ∀ a b, (le a b || le b a) = true)
    (l : List α) (p : α → Bool) (hp : ∀ a b, p a = true → p b = true → le a b = true) :
    (l.mergeSort le).filter p = l.filter p := by
  have hpair : (l.filter p).Pairwise (fun a b => le a b = true) :=
    List.pairwise_of_forall_mem_list fun a ha b hb =>
      hp a b (List.mem_filter.mp ha).2 (List.mem_filter.mp hb).2
  have hsubms : (l.filter p).Sublist (l.mergeSort le) :=
    List.sublist_mergeSort htrans htotal hpair (List.filter_sublist l)
  have hself : (l.filter p).filter p = l.filter p :=
    List.filter_eq_self.mpr fun a ha => (List.mem_filter.mp ha).2
  have hsubf : (l.filter p).Sublist ((l.mergeSort le).filter p) := by
    have hfs := List.Sublist.filter p hsubms
    rwa [hself] at hfs
  have hperm : ((l.mergeSort le).filter p).Perm (l.filter p) :=
    List.Perm.filter p (List.mergeSort_perm l le)
  exact (hsubf.eq_of_length hperm.length_eq.symm).symm

/-- JavaScript `d.toFixed(1)` on a nonnegative distance, read back by
`parseFloat`: the value rounded to the nearest tenth, halves away from
zero. -/
def roundTenths (d : ℚ) : ℚ := ((⌊d * 10 + 1 / 2⌋ : ℤ) : ℚ) / 10

/-- One entry of the list `findNearbyStores` returns: the mapped store
record.  The `"D.D miles"` string is kept as the rounded rational the
comparator parses back out of it; the field is absent when the raw store has
no `MinDistance`. -/
structure StoreSummary where
  storeID : String
  address : String
  phone : String
  isOpen : Bool
  allowsDelivery : Bool
  allowsCarryout : Bool
  estimatedDeliveryTime : String
  estimatedCarryoutTime : String
  distance : Option ℚ
  deriving Repr, DecidableEq

/-- The `"Min-Max min"` / `"Unknown"` wait strings of the store mapping. -/
def waitRangeString : Option (Nat × Nat) → String
  | some (mn, mx) => toString mn ++ "-" ++ toString mx ++ " min"
  | none => "Unknown"

/-- The `.map` step of `findNearbyStores.js` lines 29-45. -/
def storeSummary (st : RawStore) : StoreSummary :=
  { storeID := st.StoreID,
    address := st.AddressDescription,
    phone := st.Phone,
    isOpen := st.IsOpen,
    allowsDelivery := st.serviceOpenDelivery,
    allowsCarryout := st.serviceOpenCarryout,
    estimatedDeliveryTime := waitRangeString st.waitDelivery,
    estimatedCarryoutTime := waitRangeString st.waitCarryout,
    distance := st.MinDistance.map roundTenths }

/-- The sort comparator of `findNearbyStores.js` line 46,
`parseFloat(a.distance) - parseFloat(b.distance)`, as the "stays before"
relation of a stable sort.  A missing `distance` parses as `NaN`, which the
ECMAScript sort step treats as "compare equal" — and when that makes the
comparator inconsistent the ECMAScript sort order is implementation-defined;
the embedding commits to the stable merge sort with this relation. -/
def storeLe (a b : StoreSummary) : Bool :=
  match a.distance, b.distance with
  | some x, some y => decide (x ≤ y)
  | _, _ => true

/-- The same comparator through `getD`: a total preorder, agreeing with
`storeLe` whenever both distances are present. -/
def storeLeD (a b : StoreSummary) : Bool :=
  decide (a.distance.getD 0 ≤ b.distance.getD 0)

/-- `storeLeD` is transitive. -/
theorem storeLeD_trans : ∀ a b c, storeLeD a b = true → storeLeD b c = true →
    storeLeD a c = true := by
  intro a b c hab hbc
  simp only [storeLeD, decide_eq_true_eq] at hab hbc ⊢
  exact le_trans hab hbc

/-- `storeLeD` is total. -/
theorem storeLeD_total : ∀ a b, (storeLeD a b || storeLeD b a) = true := by
  intro a b
  simp only [storeLeD, Bool.or_eq_true, decide_eq_true_eq]
  exact le_total _ _

/-- On summaries whose distances are both present the two comparators
agree. -/
theorem storeLe_eq_storeLeD (a b : StoreSummary)
    (ha : a.distance.isSome = true) (hb : b.distance.isSome = true) :
    storeLe a b = storeLeD a b := by
  obtain ⟨x, hx⟩ := Option.isSome_iff_exists.mp ha
  obtain ⟨y, hy⟩ := Option.isSome_iff_exists.mp hb
  simp [storeLe, storeLeD, hx, hy]

/-- Equal present distances satisfy `storeLeD`. -/
theorem storeLeD_of_eq_dist (q : ℚ) : ∀ a b : StoreSummary,
    (a.distance == some q) = true → (b.distance == some q) = true →
    storeLeD a b = true := by
  intro a b ha hb
  rw [beq_iff_eq] at ha hb
  simp [storeLeD, ha, hb]

/-- The filtered, mapped and sorted store list `findNearbyStores` returns. -/
def nearbyStoreSummaries (raws : List RawStore) : List StoreSummary :=
  ((raws.filter (fun st => st.IsOnlineCapable && st.IsOpen)).map storeSummary).mergeSort
    storeLe

/-- Handler for the `findNearbyStores` action
(`src/actions/findNearbyStores.js`).  `remote` is the store list
`await new NearbyStores(address)` would deliver.  The result filters to
online-capable open stores, maps them to summaries and sorts by parsed
distance; the session records the raw (unfiltered) store list. -/
def findNearbyStores (s : SessionState) (remote : Except String (List RawStore)) :
    Outcome (List StoreSummary) × SessionState :=
  match remote with
  | .error e => (.thrown ("Failed to find nearby stores: " ++ e), s)
  | .ok raws => (.ok (nearbyStoreSummaries raws), s.setStores raws)

/-- Claim C7 (amended): when every store in the remote payload carries a
distance, the returned list (i) contains only images of stores reported
online-capable and open — every closed or not-online-orderable store is
excluded, (ii) is sorted ascending by the reported distance, i.e. the
`MinDistance` rounded to a tenth of a mile as rendered in the `"D.D miles"`
field (not the raw distance), (iii) breaks ties in that rounded distance by
the input order from the remote client (the stable sort keeps each class of
equal reported distances in input order), and (iv) is exactly what the
handler returns while the session records the raw list. -/
theorem findNearbyStores_filters_and_sorts (raws : List RawStore)
    (hall : ∀ st ∈ raws, st.MinDistance.isSome = true) :
    (∀ x ∈ nearbyStoreSummaries raws, ∃ st ∈ raws,
      (st.IsOnlineCapable = true ∧ st.IsOpen = true) ∧ x = storeSummary st) ∧
    ((nearbyStoreSummaries raws).Pairwise
      (fun x y => x.distance.getD 0 ≤ y.distance.getD 0)) ∧
    (∀ q : ℚ, (nearbyStoreSummaries raws).filter (fun x => x.distance == some q) =
      ((raws.filter (fun st => st.IsOnlineCapable && st.IsOpen)).map storeSummary).filter
        (fun x => x.distance == some q)) ∧
    (∀ s, findNearbyStores s (.ok raws) =
      (.ok (nearbyStoreSummaries raws), s.setStores raws)) := by
  have hbase : ∀ x ∈ (raws.filter (fun st => st.IsOnlineCapable && st.IsOpen)).map
      storeSummary, x.distance.isSome = true := by
    intro x hx
    obtain ⟨st, hst, rfl⟩ := List.mem_map.mp hx
    obtain ⟨d, hd⟩ := Option.isSome_iff_exists.mp (hall st (List.mem_of_mem_filter hst))
    show (st.MinDistance.map roundTenths).isSome = true
    rw [hd]
    rfl
  have hcongr : nearbyStoreSummaries raws =
      ((raws.filter (fun st => st.IsOnlineCapable && st.IsOpen)).map storeSummary).mergeSort
        storeLeD :=
    mergeSort_congr storeLe storeLeD _
      (fun a ha b hb => storeLe_eq_storeLeD a b (hbase a ha) (hbase b hb))
  refine ⟨?_, ?_, ?_, fun s => rfl⟩
  · intro x hx
    have hx2 := List.mem_mergeSort.mp hx
    obtain ⟨st, hst, rfl⟩ := List.mem_map.mp hx2
    have hfil := List.mem_filter.mp hst
    refine ⟨st, hfil.1, ?_, rfl⟩
    have hcond := hfil.2
    rw [Bool.and_eq_true] at hcond
    exact ⟨hcond.1, hcond.2⟩
  · rw [hcongr]
    have hsorted := List.sorted_mergeSort storeLeD_trans storeLeD_total
      ((raws.filter (fun st => st.IsOnlineCapable && st.IsOpen)).map storeSummary)
    exact hsorted.imp (fun h => by simpa [storeLeD] using h)
  · intro q
    rw [hcongr]
    exact mergeSort_filter_eq_of_equiv storeLeD storeLeD_trans storeLeD_total _
      (fun x => x.distance == some q) (storeLeD_of_eq_dist q)

/-- Witness for `findNearbyStores_filters_and_sorts` at a one-store payload
on a fresh session. -/
theorem findNearbyStores_filters_and_sorts_witness :
    findNearbyStores SessionState.initial (.ok [storeSeven]) =
      (.ok (nearbyStoreSummaries [storeSeven]), SessionState.initial.setStores [storeSeven]) := by
  have hall : ∀ st ∈ [storeSeven], st.MinDistance.isSome = true := by
    intro st hst
    rcases List.mem_cons.mp hst with rfl | h2
    · rfl
    · exact absurd h2 (List.not_mem_nil st)
  exact (findNearbyStores_filters_and_sorts [storeSeven] hall).2.2.2 SessionState.initial

/-- A raw store 1.24 miles away, listed first by the remote client. -/
def storeNearA : RawStore :=
  { StoreID := "1111", AddressDescription := "2 Oak St", Phone := "555-0002",
    IsOnlineCapable := true, IsOpen := true,
    serviceOpenDelivery := true, serviceOpenCarryout := true,
    waitDelivery := some (20, 30), waitCarryout := some (10, 15),
    MinDistance := some (31 / 25) }

/-- A raw store 1.16 miles away, listed second by the remote client. -/
def storeNearB : RawStore :=
  { StoreID := "2222", AddressDescription := "3 Elm St", Phone := "555-0003",
    IsOnlineCapable := true, IsOpen := true,
    serviceOpenDelivery := true, serviceOpenCarryout := true,
    waitDelivery := some (20, 30), waitCarryout := some (10, 15),
    MinDistance := some (29 / 25) }

/-- Both counterexample stores render as "1.2 miles". -/
theorem storeNearA_reported_distance : (storeSummary storeNearA).distance = some (6 / 5) := by
  show Option.map roundTenths (some ((31 : ℚ) / 25)) = some (6 / 5)
  simp only [Option.map_some', roundTenths, Option.some.injEq]
  norm_num [Int.floor_eq_iff]

/-- The second store's reported distance, also "1.2 miles". -/
theorem storeNearB_reported_distance : (storeSummary storeNearB).distance = some (6 / 5) := by
  show Option.map roundTenths (some ((29 : ℚ) / 25)) = some (6 / 5)
  simp only [Option.map_some', roundTenths, Option.some.injEq]
  norm_num [Int.floor_eq_iff]

/-- Claim C7 (counterexample): both 1.24 mi and 1.16 mi render as
`"1.2 miles"`, so the comparator sees a tie and the stable sort keeps the
input order — the returned list is `[1.24 mi store, 1.16 mi store]`, which
is not ascending in the stores' raw distance from the queried address; the
sort key is the rounded reported distance, not the distance itself. -/
theorem findNearbyStores_rounding_breaks_raw_order :
    nearbyStoreSummaries [storeNearA, storeNearB] =
      [storeSummary storeNearA, storeSummary storeNearB] ∧
    storeNearA.MinDistance = some (31 / 25) ∧
    storeNearB.MinDistance = some (29 / 25) ∧
    ¬ ((31 : ℚ) / 25 ≤ 29 / 25) := by
  have hpA : ((storeSummary storeNearA).distance == some (6 / 5)) = true := by
    rw [storeNearA_reported_distance]
    exact beq_iff_eq.mpr rfl
  have hpB : ((storeSummary storeNearB).distance == some (6 / 5)) = true := by
    rw [storeNearB_reported_distance]
    exact beq_iff_eq.mpr rfl
  have hsomeA : (storeSummary storeNearA).distance.isSome = true := by
    rw [storeNearA_reported_distance]; rfl
  have hsomeB : (storeSummary storeNearB).distance.isSome = true := by
    rw [storeNearB_reported_distance]; rfl
  have hsome : ∀ x ∈ [storeSummary storeNearA, storeSummary storeNearB],
      x.distance.isSome = true := by
    intro x hx
    rcases List.mem_cons.mp hx with rfl | hx2
    · exact hsomeA
    · rcases List.mem_cons.mp hx2 with rfl | hx3
      · exact hsomeB
      · exact absurd hx3 (List.not_mem_nil x)
  have hbase : nearbyStoreSummaries [storeNearA, storeNearB] =
      ([storeSummary storeNearA, storeSummary storeNearB] : List StoreSummary).mergeSort
        storeLe := rfl
  have hcongr : ([storeSummary storeNearA, storeSummary storeNearB] :
        List StoreSummary).mergeSort storeLe =
      ([storeSummary storeNearA, storeSummary storeNearB] : List StoreSummary).mergeSort
        storeLeD :=
    mergeSort_congr storeLe storeLeD _
      (fun a ha b hb => storeLe_eq_storeLeD a b (hsome a ha) (hsome b hb))
  have hfilter := mergeSort_filter_eq_of_equiv storeLeD storeLeD_trans storeLeD_total
    [storeSummary storeNearA, storeSummary storeNearB]
    (fun x => x.distance == some (6 / 5)) (storeLeD_of_eq_dist (6 / 5))
  have hallp : ∀ x ∈ ([storeSummary storeNearA, storeSummary storeNearB] :
      List StoreSummary).mergeSort storeLeD, ((fun x : StoreSummary =>
        x.distance == some (6 / 5)) x) = true := by
    intro x hx
    rcases List.mem_cons.mp (List.mem_mergeSort.mp hx) with rfl | hx2
    · exact hpA
    · rcases List.mem_cons.mp hx2 with rfl | hx3
      · exact hpB
      · exact absurd hx3 (List.not_mem_nil x)
  have hself := List.filter_eq_self.mpr hallp
  have hconcrete : List.filter (fun x : StoreSummary => x.distance == some (6 / 5))
      [storeSummary storeNearA, storeSummary storeNearB] =
      [storeSummary storeNearA, storeSummary storeNearB] := by
    simp only [List.filter_cons, List.filter_nil, hpA, hpB, if_true]
  refine ⟨?_, rfl, rfl, by norm_num⟩
  rw [hbase, hcongr, ← hself, hfilter, hconcrete]

/-- The boolean milestone checklist `trackOrder` builds
(`src/actions/trackOrder.js` lines 63-93).  The delivery-only fields
(`outForDelivery`, `delivered`) and the carryout-only fields
(`readyForPickup`, `pickedUp`) are present according to the service
method. -/
structure TrackerChecklist where
  orderPlaced : Bool
  preparation : Bool
  baking : Bool
  qualityCheck : Bool
  outForDelivery : Option Bool
  delivered : Option Bool
  readyForPickup : Option Bool
  pickedUp : Option Bool
  deriving Repr, DecidableEq

/-- The tracker construction of `trackOrder.js`: the shared milestones are
negated string comparisons against the statuses at or before the stage, the
delivery branch (`ServiceMethod === "Delivery"`) adds the out-for-delivery
and delivered flags, any other service method adds the ready-for-pickup and
picked-up flags. -/
def buildTracker (serviceMethod : String) (orderStatus : String) : TrackerChecklist :=
  let preparation := orderStatus != "Preparing" && orderStatus != "Placed"
  let baking := orderStatus != "Preparing" && orderStatus != "Placed" &&
    orderStatus != "Baking"
  let qualityCheck := orderStatus != "Preparing" && orderStatus != "Placed" &&
    orderStatus != "Baking" && orderStatus != "Quality Check"
  if serviceMethod == "Delivery" then
    { orderPlaced := true, preparation := preparation, baking := baking,
      qualityCheck := qualityCheck,
      outForDelivery := some (orderStatus == "Out for Delivery" ||
        orderStatus == "Complete"),
      delivered := some (orderStatus == "Complete"),
      readyForPickup := none, pickedUp := none }
  else
    { orderPlaced := true, preparation := preparation, baking := baking,
      qualityCheck := qualityCheck,
      outForDelivery := none, delivered := none,
      readyForPickup := some (orderStatus == "Ready for Pickup" ||
        orderStatus == "Complete"),
      pickedUp := some (orderStatus == "Complete") }

/-- The remote status vocabulary of the delivery path, in stage order. -/
def deliveryStatusVocab : List String :=
  ["Placed", "Preparing", "Baking", "Quality Check", "Out for Delivery", "Complete"]

/-- The remote status vocabulary of the carryout path, in stage order. -/
def carryoutStatusVocab : List String :=
  ["Placed", "Preparing", "Baking", "Quality Check", "Ready for Pickup", "Complete"]

/-- The stage index of a delivery-path status, following the spec's ordered
milestone list placed(0) → preparation(1) → baking(2) → quality-check(3) →
out-for-delivery(4) → delivered(5). -/
def deliveryStageIdx : String → Option Nat
  | "Placed" => some 0
  | "Preparing" => some 1
  | "Baking" => some 2
  | "Quality Check" => some 3
  | "Out for Delivery" => some 4
  | "Complete" => some 5
  | _ => none

/-- The stage index of a carryout-path status: placed(0) → preparation(1) →
baking(2) → quality-check(3) → ready-for-pickup(4) → picked-up(5). -/
def carryoutStageIdx : String → Option Nat
  | "Placed" => some 0
  | "Preparing" => some 1
  | "Baking" => some 2
  | "Quality Check" => some 3
  | "Ready for Pickup" => some 4
  | "Complete" => some 5
  | _ => none

/-- The spec's milestone policy, written from the spec's words: the
milestone at stage `k` of the delivery path is reached exactly when the
status has progressed at or past that stage. -/
def statusAtOrPastDelivery (k : Nat) (orderStatus : String) : Bool :=
  match deliveryStageIdx orderStatus with
  | some i => decide (k ≤ i)
  | none => false

/-- The spec's milestone policy on the carryout path. -/
def statusAtOrPastCarryout (k : Nat) (orderStatus : String) : Bool :=
  match carryoutStageIdx orderStatus with
  | some i => decide (k ≤ i)
  | none => false

/-- Claim C8 (counterexample): at remote status `"Preparing"` on the
delivery path, the order has progressed at (hence at-or-past) the
preparation stage, but the tracker's `preparation` milestone is `false` —
the code's comparisons make the shared intermediate milestones "strictly
past", not "at or past". -/
theorem buildTracker_preparing_mismatch :
    (buildTracker "Delivery" "Preparing").preparation = false ∧
    statusAtOrPastDelivery 1 "Preparing" = true := by
  constructor <;> rfl

/-- Claim C8 (amended): over the remote status vocabulary, `orderPlaced` is
always true; the shared `preparation`, `baking` and `qualityCheck`
milestones are true exactly when the status has progressed strictly past
that stage (equivalently, at or past the following stage: indices 2, 3 and
4); and the terminal flags — `outForDelivery`/`delivered` on the delivery
path, `readyForPickup`/`pickedUp` on the carryout path — are true exactly
when the status is at or past that stage (indices 4 and 5). -/
theorem buildTracker_milestones (st : String) :
    (st ∈ deliveryStatusVocab →
      (buildTracker "Delivery" st).orderPlaced = true ∧
      (buildTracker "Delivery" st).preparation = statusAtOrPastDelivery 2 st ∧
      (buildTracker "Delivery" st).baking = statusAtOrPastDelivery 3 st ∧
      (buildTracker "Delivery" st).qualityCheck = statusAtOrPastDelivery 4 st ∧
      (buildTracker "Delivery" st).outForDelivery = some (statusAtOrPastDelivery 4 st) ∧
      (buildTracker "Delivery" st).delivered = some (statusAtOrPastDelivery 5 st)) ∧
    (st ∈ carryoutStatusVocab →
      (buildTracker "Carryout" st).orderPlaced = true ∧
      (buildTracker "Carryout" st).preparation = statusAtOrPastCarryout 2 st ∧
      (buildTracker "Carryout" st).baking = statusAtOrPastCarryout 3 st ∧
      (buildTracker "Carryout" st).qualityCheck = statusAtOrPastCarryout 4 st ∧
      (buildTracker "Carryout" st).readyForPickup = some (statusAtOrPastCarryout 4 st) ∧
      (buildTracker "Carryout" st).pickedUp = some (statusAtOrPastCarryout 5 st)) := by
  constructor <;> intro hmem <;> fin_cases hmem <;>
    exact ⟨rfl, rfl, rfl, rfl, rfl, rfl⟩

/-- Witness for `buildTracker_milestones` at the concrete status
`"Out for Delivery"`. -/
theorem buildTracker_milestones_witness :
    (buildTracker "Delivery" "Out for Delivery").qualityCheck =
      statusAtOrPastDelivery 4 "Out for Delivery" ∧
    (buildTracker "Delivery" "Out for Delivery").outForDelivery =
      some (statusAtOrPastDelivery 4 "Out for Delivery") :=
  ⟨((buildTracker_milestones "Out for Delivery").1 (by decide)).2.2.2.1,
   ((buildTracker_milestones "Out for Delivery").1 (by decide)).2.2.2.2.1⟩
